import Mathlib

/-!
Shallow embedding of the TextOnlyPDFReader application (src/script.js).

The reader keeps four pieces of navigation state (constructor, lines 32-35):
a document handle (modelled by its page count, since only numPages is read),
a current page number, a render-in-progress flag, and an optional pending
page number.  Asynchronous rendering is modelled by splitting
renderCurrentPage into its synchronous prefix (the guard and the setting of
the flag, lines 110-113) and its completion (the catch/finally block,
lines 151-162), which the event loop runs later; the completion takes a
Boolean recording whether the try body succeeded.  Observable effects
(console.error, alert, the start of a render cycle) are returned as a list
of events.
-/

/-- Observable events emitted by the reader operations: a render cycle
starting on a given page, an error logged to the console (console.error),
and a blocking alert shown to the user. -/
inductive Event where
  | renderStart (page : Int)
  | logError
  | alertError
deriving Repr, DecidableEq, BEq

/-- Navigation-relevant state of a TextOnlyPDFReader instance
(src/script.js lines 32-35).  The opaque document handle is represented by
its page count, the only field the navigation code reads (this.pdfDoc.numPages). -/
structure ReaderState where
  pdfDoc : Option Nat
  pageNum : Int
  pageRendering : Bool
  pageNumPending : Option Int
deriving Repr, DecidableEq

/-- The state established by the constructor (src/script.js lines 32-35):
no document, page 1, not rendering, no pending page. -/
def initState : ReaderState :=
  { pdfDoc := none, pageNum := 1, pageRendering := false, pageNumPending := none }

/-- Synchronous prefix of renderCurrentPage (src/script.js lines 110-113):
return immediately when no document is held or a render is in progress;
otherwise set the render-in-progress flag and begin a render cycle for the
current page. -/
def renderCurrentPageStart (s : ReaderState) : ReaderState × List Event :=
  if s.pdfDoc.isNone ∨ s.pageRendering then (s, [])
  else ({ s with pageRendering := true }, [Event.renderStart s.pageNum])

/-- navigateToPage (src/script.js lines 221-235): no-op without a document;
reject out-of-range targets; while rendering, overwrite the pending slot;
otherwise set the current page and start a render. -/
def navigateToPage (s : ReaderState) (pageNum : Int) : ReaderState × List Event :=
  match s.pdfDoc with
  | none => (s, [])
  | some numPages =>
      if pageNum < 1 ∨ pageNum > (numPages : Int) then (s, [])
      else if s.pageRendering then ({ s with pageNumPending := some pageNum }, [])
      else renderCurrentPageStart { s with pageNum := pageNum }

/-- Completion of an in-flight render cycle: the catch and finally blocks of
renderCurrentPage (src/script.js lines 151-162).  `ok` records whether the
try body succeeded; on failure the error is logged.  The finally block
clears the render-in-progress flag and, when a pending page was queued,
consumes it and navigates to it. -/
def renderComplete (s : ReaderState) (ok : Bool) : ReaderState × List Event :=
  let evs : List Event := if ok then [] else [Event.logError]
  let s1 : ReaderState := { s with pageRendering := false }
  match s1.pageNumPending with
  | none => (s1, evs)
  | some pendingPage =>
      let r := navigateToPage { s1 with pageNumPending := none } pendingPage
      (r.1, evs ++ r.2)

/-- Outcome of handing a selected file to the external library: either a
document handle (represented by its page count) or a rejection (covering
both a FileReader error and a getDocument rejection, which land in the same
catch block). -/
inductive LoadOutcome where
  | success (numPages : Nat)
  | failure
deriving Repr, DecidableEq

/-- loadPDF (src/script.js lines 75-99): no-op when no file is supplied; on
library rejection or read failure, log the error and alert the user with no
state mutation; on success install the document, reset to page 1 and start
the initial render. -/
def loadPDF (s : ReaderState) (file : Option LoadOutcome) : ReaderState × List Event :=
  match file with
  | none => (s, [])
  | some LoadOutcome.failure => (s, [Event.logError, Event.alertError])
  | some (LoadOutcome.success numPages) =>
      renderCurrentPageStart { s with pdfDoc := some numPages, pageNum := 1 }

/-- The three DOM mutations performed by updateUI: the page-info text and
the disabled flags of the previous/next buttons. -/
structure UIView where
  pageInfoText : String
  prevDisabled : Bool
  nextDisabled : Bool
deriving Repr, DecidableEq

/-- updateUI (src/script.js lines 242-256) as a pure function of the
navigation state. -/
def updateUI (s : ReaderState) : UIView :=
  match s.pdfDoc with
  | some numPages =>
      { pageInfoText := "Page " ++ toString s.pageNum ++ " of " ++ toString numPages
        prevDisabled := decide (s.pageNum ≤ 1)
        nextDisabled := decide (s.pageNum ≥ (numPages : Int)) }
  | none =>
      { pageInfoText := "No PDF loaded", prevDisabled := true, nextDisabled := true }

/-- A sequence of navigation requests issued in order (each a click handled
by navigateToPage), with the emitted events concatenated. -/
def navSeq : ReaderState → List Int → ReaderState × List Event
  | s, [] => (s, [])
  | s, p :: ps =>
      let r1 := navigateToPage s p
      let r2 := navSeq r1.1 ps
      (r2.1, r1.2 ++ r2.2)

/-- The pages of the render cycles started in an event list, in order. -/
def renderStarts (evs : List Event) : List Int :=
  evs.filterMap fun e =>
    match e with
    | Event.renderStart p => some p
    | Event.logError => none
    | Event.alertError => none

/-- One event-loop step of the reader: a navigation request, the completion
of an in-flight render cycle (successful or failed), or a file-load
attempt. -/
inductive Step : ReaderState → ReaderState → Prop where
  | nav (s : ReaderState) (p : Int) : Step s (navigateToPage s p).1
  | complete (s : ReaderState) (ok : Bool) (h : s.pageRendering = true) :
      Step s (renderComplete s ok).1
  | load (s : ReaderState) (file : Option LoadOutcome) : Step s (loadPDF s file).1

/-- States reachable from the constructor state by event-loop steps. -/
inductive Reachable : ReaderState → Prop where
  | init : Reachable initState
  | step {s t : ReaderState} : Reachable s → Step s t → Reachable t

/-- The invariant of the pending slot: it is occupied only while a render is
in progress. -/
def pendingInv (s : ReaderState) : Prop :=
  s.pageNumPending.isSome = true → s.pageRendering = true

/-- The en dash character remapped at src/script.js line 177. -/
def enDash : Char := '–'

/-- The em dash character remapped at src/script.js line 178. -/
def emDash : Char := '—'

/-- The figure dash character remapped at src/script.js line 179. -/
def figureDash : Char := '‒'

/-- The literal replacement for the en dash (src/script.js line 177): the
three characters of the source string. -/
def enDashSub : List Char := ['‚', 'Ä', 'ì']

/-- The literal replacement for the em dash (src/script.js line 178). -/
def emDashSub : List Char := ['‚', 'Ä', 'î']

/-- The literal replacement for the figure dash (src/script.js line 179). -/
def figureDashSub : List Char := ['‚', 'Ä', 'ë']

/-- JavaScript String.replace with a global single-character pattern:
every occurrence of `c` is replaced by the character list `r`. -/
def replaceAll (c : Char) (r : List Char) : List Char → List Char
  | [] => []
  | x :: xs => (if x = c then r else [x]) ++ replaceAll c r xs

/-- The text run post-processor (src/script.js lines 174-182): the three
global replaces applied in source order to a run's string. -/
def processTextRun (s : List Char) : List Char :=
  replaceAll figureDash figureDashSub
    (replaceAll emDash emDashSub (replaceAll enDash enDashSub s))

/-- The per-character substitution table read off the spec's description of
the post-processor: each mapped dash becomes its replacement sequence and
every other character is kept. -/
def dashTable (c : Char) : List Char :=
  if c = enDash then enDashSub
  else if c = emDash then emDashSub
  else if c = figureDash then figureDashSub
  else [c]

/-- Pointwise application of the substitution table to a run. -/
def substRunPointwise : List Char → List Char
  | [] => []
  | c :: cs => dashTable c ++ substRunPointwise cs

/-- The options object passed to page.getTextContent
(src/script.js lines 168-171). -/
structure TextContentOptions where
  normalizeWhitespace : Bool
  disableCombineTextItems : Bool
deriving Repr, DecidableEq

/-- The literal options passed to page.getTextContent on every render
(src/script.js lines 168-171). -/
def getTextContentOptions : TextContentOptions :=
  { normalizeWhitespace := true, disableCombineTextItems := false }

/-- The button text assigned when dark mode is active
(src/script.js line 281): the six characters of the first source literal. -/
def sunGlyph : String := "‚òÄÔ∏è"

/-- The button text assigned when dark mode is inactive
(src/script.js line 281): the four characters of the second source literal. -/
def moonGlyph : String := "üåô"

/-- Dark-mode state: whether the body carries the dark-mode class, the
string stored under the darkMode key in localStorage (none when the key is
absent), and the toggle button's text. -/
structure DarkModeState where
  bodyDark : Bool
  stored : Option String
  buttonText : String
deriving Repr, DecidableEq

/-- updateDarkModeButton (src/script.js lines 278-282): set the button text
from current class membership. -/
def updateDarkModeButton (s : DarkModeState) : DarkModeState :=
  { s with buttonText := if s.bodyDark then sunGlyph else moonGlyph }

/-- toggleDarkMode (src/script.js lines 268-276): flip the class, recompute
the Boolean from class membership, persist its string form, update the
button. -/
def toggleDarkMode (s : DarkModeState) : DarkModeState :=
  let s1 : DarkModeState := { s with bodyDark := !s.bodyDark }
  let isDarkMode := s1.bodyDark
  updateDarkModeButton
    { s1 with stored := some (if isDarkMode then "true" else "false") }

/-- initDarkMode (src/script.js lines 258-266): read the persisted value,
add the class when it reads "true", and refresh the button. -/
def initDarkMode (s : DarkModeState) : DarkModeState :=
  let savedDarkMode := s.stored == some "true"
  updateDarkModeButton (if savedDarkMode then { s with bodyDark := true } else s)

/-- The persisted dark-mode preference as the code reads it back
(src/script.js line 260): true exactly when the stored string is "true". -/
def darkPref (s : DarkModeState) : Bool :=
  s.stored == some "true"

/-! ## Theorems -/

/-- C5: a load attempt in which the library rejects the file (or reading it
fails) leaves the whole reader state, in particular the current page number
and the held document handle, unchanged, and emits exactly one user-visible
alert; the error is caught (loadPDF returns normally with a logged error). -/
theorem loadPDF_failure_spec (s : ReaderState) :
    loadPDF s (some LoadOutcome.failure) = (s, [Event.logError, Event.alertError]) ∧
    (loadPDF s (some LoadOutcome.failure)).2.count Event.alertError = 1 := by
  exact ⟨rfl, rfl⟩

/-- C8 counterexample: the claim says the option disabling combination of
text items is set to true, but the literal options object at
src/script.js line 170 sets disableCombineTextItems to false. -/
theorem getTextContentOptions_combine_counterexample :
    ¬ (getTextContentOptions.normalizeWhitespace = true ∧
       getTextContentOptions.disableCombineTextItems = true) := by
  decide

/-- C8 amended: on every page render the text-content request is made with
whitespace normalization enabled and disableCombineTextItems set to false
(text-item combination is left enabled). -/
theorem getTextContentOptions_spec :
    getTextContentOptions.normalizeWhitespace = true ∧
    getTextContentOptions.disableCombineTextItems = false := by
  decide

/-- C10: with no document handle held, navigateToPage is a no-op for every
page number (no state change, no events) and the synchronous prefix of
renderCurrentPage is likewise a no-op that does not set the
render-in-progress flag. -/
theorem noDoc_noop (s : ReaderState) (p : Int) (h : s.pdfDoc = none) :
    navigateToPage s p = (s, []) ∧ renderCurrentPageStart s = (s, []) := by
  constructor
  · simp [navigateToPage, h]
  · simp [renderCurrentPageStart, h]

/-- C10 witness: the claim evaluated in the constructor state at page 5. -/
theorem noDoc_noop_witness :
    navigateToPage initState 5 = (initState, []) ∧
    renderCurrentPageStart initState = (initState, []) :=
  noDoc_noop initState 5 rfl

/-- C6 counterexample: in the fresh state with no document loaded the
page-info text is the literal "No PDF loaded" (src/script.js line 252), not
"No document loaded" as the claim states. -/
theorem updateUI_noDoc_counterexample :
    ¬ ((updateUI initState).pageInfoText = "No document loaded" ∧
       (updateUI initState).prevDisabled = true ∧
       (updateUI initState).nextDisabled = true) := by
  decide

/-- C6 amended: with no document the page-info text is "No PDF loaded" and
both buttons are disabled; with a document of numPages pages and current
page pageNum, the text is "Page pageNum of numPages", the previous button
is disabled iff pageNum is at most 1, and the next button is disabled iff
pageNum is at least numPages. -/
theorem updateUI_spec (s : ReaderState) (numPages : Nat) :
    (s.pdfDoc = none →
      updateUI s = { pageInfoText := "No PDF loaded",
                     prevDisabled := true, nextDisabled := true }) ∧
    (s.pdfDoc = some numPages →
      (updateUI s).pageInfoText =
        "Page " ++ toString s.pageNum ++ " of " ++ toString numPages ∧
      ((updateUI s).prevDisabled = true ↔ s.pageNum ≤ 1) ∧
      ((updateUI s).nextDisabled = true ↔ (numPages : Int) ≤ s.pageNum)) := by
  constructor
  · intro h
    simp [updateUI, h]
  · intro h
    simp [updateUI, h, ge_iff_le]

/-- C6 witness: the spec's scenario of a 3-page document on page 1 gives
"Page 1 of 3" with the previous button disabled and the next enabled, via
updateUI_spec. -/
theorem updateUI_spec_witness :
    (updateUI ⟨some 3, 1, false, none⟩).pageInfoText = "Page 1 of 3" ∧
    (updateUI ⟨some 3, 1, false, none⟩).prevDisabled = true ∧
    (updateUI ⟨some 3, 1, false, none⟩).nextDisabled = false := by
  have h := (updateUI_spec ⟨some 3, 1, false, none⟩ 3).2 rfl
  have h4 : ¬ (updateUI ⟨some 3, 1, false, none⟩).nextDisabled = true :=
    fun hb => absurd (h.2.2.mp hb) (by decide)
  exact ⟨h.1, h.2.1.mpr (by decide), by simpa using h4⟩

/-- C1: with a document of numPages pages held and no render in progress,
navigateToPage sets the current page to any in-range target, and rejects an
out-of-range target leaving the entire state unchanged and emitting no
event (so no error is surfaced). -/
theorem navigateToPage_idle_spec (s : ReaderState) (numPages : Nat) (p : Int)
    (hdoc : s.pdfDoc = some numPages) (hidle : s.pageRendering = false) :
    (1 ≤ p → p ≤ (numPages : Int) → (navigateToPage s p).1.pageNum = p) ∧
    (p < 1 ∨ (numPages : Int) < p → navigateToPage s p = (s, [])) := by
  constructor
  · intro h1 h2
    have hcond : ¬ (p < 1 ∨ p > (numPages : Int)) := by omega
    simp [navigateToPage, hdoc, hcond, hidle, renderCurrentPageStart]
  · intro h
    have hcond : p < 1 ∨ p > (numPages : Int) := by omega
    simp [navigateToPage, hdoc, hcond]

/-- C1 witness: on an idle 3-page reader, navigating to 2 yields page 2,
and navigating to 0 and to 4 both leave the state unchanged. -/
theorem navigateToPage_idle_spec_witness :
    (navigateToPage ⟨some 3, 1, false, none⟩ 2).1.pageNum = 2 ∧
    navigateToPage ⟨some 3, 1, false, none⟩ 0 = (⟨some 3, 1, false, none⟩, []) ∧
    navigateToPage ⟨some 3, 1, false, none⟩ 4 = (⟨some 3, 1, false, none⟩, []) := by
  refine ⟨(navigateToPage_idle_spec ⟨some 3, 1, false, none⟩ 3 2 rfl rfl).1
      (by decide) (by decide),
    (navigateToPage_idle_spec ⟨some 3, 1, false, none⟩ 3 0 rfl rfl).2 (by decide),
    (navigateToPage_idle_spec ⟨some 3, 1, false, none⟩ 3 4 rfl rfl).2 (by decide)⟩

/-- Shared helper: every occurrence of a character is replaced pointwise, so
replaceAll distributes over append. -/
theorem replaceAll_append (c : Char) (r : List Char) (a b : List Char) :
    replaceAll c r (a ++ b) = replaceAll c r a ++ replaceAll c r b := by
  induction a with
  | nil => simp [replaceAll]
  | cons x xs ih => simp [replaceAll, ih]

/-- Shared helper: the three sequential global replaces act on each
character independently, because no replacement sequence contains a mapped
dash. -/
theorem processTextRun_cons (x : Char) (xs : List Char) :
    processTextRun (x :: xs) = dashTable x ++ processTextRun xs := by
  have h1 : replaceAll enDash enDashSub (x :: xs)
      = (if x = enDash then enDashSub else [x]) ++ replaceAll enDash enDashSub xs := rfl
  unfold processTextRun
  rw [h1, replaceAll_append, replaceAll_append]
  have h2 : replaceAll figureDash figureDashSub
      (replaceAll emDash emDashSub (if x = enDash then enDashSub else [x]))
      = dashTable x := by
    by_cases hx1 : x = enDash
    · subst hx1; decide
    · by_cases hx2 : x = emDash
      · subst hx2; decide
      · by_cases hx3 : x = figureDash
        · subst hx3; decide
        · simp [replaceAll, dashTable, hx1, hx2, hx3]
  rw [h2]

/-- Shared helper: the post-processor equals the pointwise application of
the substitution table on every run. -/
theorem processTextRun_eq_pointwise (w : List Char) :
    processTextRun w = substRunPointwise w := by
  induction w with
  | nil => rfl
  | cons x xs ih => rw [processTextRun_cons, substRunPointwise, ih]

/-- C7 counterexample: the run consisting of an en dash followed by an em
dash contains the en dash, but the post-processed run is not the run with
only the en dashes substituted and every other character unchanged: the em
dash is remapped as well (src/script.js line 178). -/
theorem processTextRun_counterexample :
    enDash ∈ [enDash, emDash] ∧
    processTextRun [enDash, emDash] ≠
      replaceAll enDash enDashSub [enDash, emDash] := by
  decide

/-- C7 amended: for every text run containing the en dash, the
post-processed run substitutes the fixed three-character sequence for each
en dash occurrence, and every character other than the three mapped dash
variants (en, em and figure dash, which have their own substitutions)
appears unchanged in its original order: the processor acts pointwise by
the substitution table. -/
theorem processTextRun_spec (w : List Char) (h : enDash ∈ w) :
    processTextRun w = substRunPointwise w ∧ dashTable enDash = enDashSub :=
  ⟨processTextRun_eq_pointwise w, rfl⟩

/-- C7 witness: the amended claim evaluated on the run of an en dash
followed by a plain letter. -/
theorem processTextRun_spec_witness :
    processTextRun [enDash, 'a'] = substRunPointwise [enDash, 'a'] ∧
    dashTable enDash = enDashSub :=
  processTextRun_spec [enDash, 'a'] (by decide)

/-- C9: starting from any dark-mode state whose body class agrees with the
persisted preference (as initDarkMode establishes), toggling twice restores
the persisted boolean to its original value, and after each single toggle
the persisted boolean equals current class membership and the button text
is the sun glyph when dark mode is active and the moon glyph otherwise. -/
theorem toggleDarkMode_spec (s : DarkModeState) (h : s.bodyDark = darkPref s) :
    darkPref (toggleDarkMode (toggleDarkMode s)) = darkPref s ∧
    darkPref (toggleDarkMode s) = (toggleDarkMode s).bodyDark ∧
    (toggleDarkMode s).buttonText =
      (if (toggleDarkMode s).bodyDark then sunGlyph else moonGlyph) ∧
    darkPref (toggleDarkMode (toggleDarkMode s)) =
      (toggleDarkMode (toggleDarkMode s)).bodyDark ∧
    (toggleDarkMode (toggleDarkMode s)).buttonText =
      (if (toggleDarkMode (toggleDarkMode s)).bodyDark then sunGlyph else moonGlyph) := by
  obtain ⟨b, st, bt⟩ := s
  simp only [darkPref] at h
  cases b <;>
    simp_all [toggleDarkMode, updateDarkModeButton, darkPref]

/-- C9 witness: the claim evaluated from the coherent state with no stored
preference and the dark-mode class absent. -/
theorem toggleDarkMode_spec_witness :
    darkPref (toggleDarkMode (toggleDarkMode ⟨false, none, moonGlyph⟩)) =
      darkPref ⟨false, none, moonGlyph⟩ ∧
    (toggleDarkMode ⟨false, none, moonGlyph⟩).buttonText = sunGlyph ∧
    (toggleDarkMode (toggleDarkMode ⟨false, none, moonGlyph⟩)).buttonText = moonGlyph := by
  have h := toggleDarkMode_spec ⟨false, none, moonGlyph⟩ (by decide)
  exact ⟨h.1, by simpa using h.2.2.1, by simpa using h.2.2.2.2⟩

/-- C4: a render cycle started by renderCurrentPage (document held, no
render in progress, so the guard passes and the flag is set) always clears
the render-in-progress flag in its finally block, on the success and on the
caught-failure path alike: a failure is logged, and after completion the
flag can only be set again because a follow-up render cycle was started
from the pending slot; with an empty pending slot the flag is false. -/
theorem renderCycle_clears_flag (s : ReaderState) (ok : Bool) (numPages : Nat)
    (hdoc : s.pdfDoc = some numPages) (hidle : s.pageRendering = false) :
    (renderCurrentPageStart s).1.pageRendering = true ∧
    (ok = false →
      Event.logError ∈ (renderComplete (renderCurrentPageStart s).1 ok).2) ∧
    (s.pageNumPending = none →
      (renderComplete (renderCurrentPageStart s).1 ok).1.pageRendering = false) ∧
    ((renderComplete (renderCurrentPageStart s).1 ok).1.pageRendering = true →
      ∃ p, Event.renderStart p ∈ (renderComplete (renderCurrentPageStart s).1 ok).2) := by
  have hstart : renderCurrentPageStart s
      = ({ s with pageRendering := true }, [Event.renderStart s.pageNum]) := by
    simp [renderCurrentPageStart, hdoc, hidle]
  rw [hstart]
  refine ⟨rfl, ?_, ?_, ?_⟩
  · intro hok
    subst hok
    cases hp : s.pageNumPending with
    | none => simp [renderComplete, hp]
    | some q =>
        cases hdoc2 : s.pdfDoc with
        | none => simp [hdoc2] at hdoc
        | some m =>
            by_cases hv : q < 1 ∨ q > (m : Int)
            · simp [renderComplete, hp, navigateToPage, hdoc2, hv]
            · simp [renderComplete, hp, navigateToPage, hdoc2, hv,
                renderCurrentPageStart]
  · intro hp
    simp [renderComplete, hp]
  · intro hset
    cases hp : s.pageNumPending with
    | none => simp [renderComplete, hp] at hset
    | some q =>
        by_cases hv : q < 1 ∨ q > (numPages : Int)
        · exfalso
          simp [renderComplete, hp, navigateToPage, hdoc, hv] at hset
        · refine ⟨q, ?_⟩
          simp [renderComplete, hp, navigateToPage, hdoc, hv,
            renderCurrentPageStart]

/-- C4 witness: a failing render cycle on a 3-page document with an empty
pending slot logs the error and leaves the flag cleared. -/
theorem renderCycle_clears_flag_witness :
    (renderCurrentPageStart ⟨some 3, 1, false, none⟩).1.pageRendering = true ∧
    Event.logError ∈
      (renderComplete (renderCurrentPageStart ⟨some 3, 1, false, none⟩).1 false).2 ∧
    (renderComplete (renderCurrentPageStart ⟨some 3, 1, false, none⟩).1
      false).1.pageRendering = false := by
  have h := renderCycle_clears_flag ⟨some 3, 1, false, none⟩ false 3 rfl rfl
  exact ⟨h.1, h.2.1 rfl, h.2.2.1 rfl⟩

/-- Shared helper: a valid navigation request made while a render is in
progress only overwrites the pending slot and emits nothing. -/
theorem navigateToPage_rendering_eq (s : ReaderState) (numPages : Nat) (p : Int)
    (hdoc : s.pdfDoc = some numPages) (hrend : s.pageRendering = true)
    (h1 : 1 ≤ p) (h2 : p ≤ (numPages : Int)) :
    navigateToPage s p = ({ s with pageNumPending := some p }, []) := by
  have hv : ¬ (p < 1 ∨ p > (numPages : Int)) := by omega
  simp [navigateToPage, hdoc, hv, hrend]

/-- Shared helper: a nonempty sequence of valid navigation requests issued
while a render is in progress collapses to the last request sitting in the
pending slot, with no events emitted. -/
theorem navSeq_rendering (numPages : Nat) (p : Int) (ps : List Int) :
    ∀ s : ReaderState, s.pdfDoc = some numPages → s.pageRendering = true →
    (1 ≤ p ∧ p ≤ (numPages : Int)) →
    (∀ q ∈ ps, 1 ≤ q ∧ q ≤ (numPages : Int)) →
    navSeq s (p :: ps)
      = ({ s with pageNumPending := some ((p :: ps).getLast (by simp)) }, []) := by
  induction ps generalizing p with
  | nil =>
      intro s hdoc hrend hp _
      simp [navSeq, navigateToPage_rendering_eq s numPages p hdoc hrend hp.1 hp.2]
  | cons q qs ih =>
      intro s hdoc hrend hp hq
      have hnav := navigateToPage_rendering_eq s numPages p hdoc hrend hp.1 hp.2
      have hih := ih q { s with pageNumPending := some p } hdoc hrend
        (hq q (by simp)) (fun r hr => hq r (by simp [hr]))
      have hlast : ((p :: q :: qs).getLast (by simp))
          = ((q :: qs).getLast (by simp)) := by
        exact List.getLast_cons (by simp)
      rw [hlast]
      show ((navSeq (navigateToPage s p).1 (q :: qs)).1,
        (navigateToPage s p).2 ++ (navSeq (navigateToPage s p).1 (q :: qs)).2) = _
      rw [hnav]
      simp [hih]

/-- C2: for every nonempty sequence of valid navigation requests issued
while a render is in progress, no render cycle starts during the sequence
(the flag stays set and nothing is emitted), each request overwrites the
single pending slot so that only the last request survives, and when the
in-progress render completes exactly one subsequent render cycle starts,
targeting the last request's page, which becomes the current page; the
earlier targets are never rendered. -/
theorem rendering_requests_coalesce (s : ReaderState) (numPages : Nat)
    (p : Int) (ps : List Int) (ok : Bool)
    (hdoc : s.pdfDoc = some numPages) (hrend : s.pageRendering = true)
    (hvalid : ∀ q ∈ p :: ps, 1 ≤ q ∧ q ≤ (numPages : Int)) :
    renderStarts (navSeq s (p :: ps)).2 = [] ∧
    (navSeq s (p :: ps)).1.pageRendering = true ∧
    (navSeq s (p :: ps)).1.pageNumPending = some ((p :: ps).getLast (by simp)) ∧
    renderStarts (renderComplete (navSeq s (p :: ps)).1 ok).2
      = [(p :: ps).getLast (by simp)] ∧
    (renderComplete (navSeq s (p :: ps)).1 ok).1.pageNum
      = (p :: ps).getLast (by simp) := by
  have hn := navSeq_rendering numPages p ps s hdoc hrend
    (hvalid p (by simp)) (fun q hq => hvalid q (by simp [hq]))
  rw [hn]
  have hlmem : (p :: ps).getLast (by simp) ∈ p :: ps := List.getLast_mem (by simp)
  obtain ⟨hlb1, hlb2⟩ := hvalid _ hlmem
  have hv : ¬ ((p :: ps).getLast (by simp) < 1 ∨
      (p :: ps).getLast (by simp) > (numPages : Int)) := by omega
  refine ⟨rfl, hrend, rfl, ?_, ?_⟩
  · cases ok <;>
      simp [renderComplete, navigateToPage, hdoc, hv, renderCurrentPageStart,
        renderStarts]
  · cases ok <;>
      simp [renderComplete, navigateToPage, hdoc, hv, renderCurrentPageStart]

/-- C2 witness: two rapid requests for pages 2 and 3 during a render on a
3-page document leave page 3 pending, start nothing, and on completion
start exactly one render targeting page 3. -/
theorem rendering_requests_coalesce_witness :
    (navSeq ⟨some 3, 1, true, none⟩ [2, 3]).1.pageNumPending = some 3 ∧
    renderStarts (navSeq ⟨some 3, 1, true, none⟩ [2, 3]).2 = [] ∧
    renderStarts (renderComplete (navSeq ⟨some 3, 1, true, none⟩ [2, 3]).1 true).2
      = [3] ∧
    (renderComplete (navSeq ⟨some 3, 1, true, none⟩ [2, 3]).1 true).1.pageNum = 3 := by
  have h := rendering_requests_coalesce ⟨some 3, 1, true, none⟩ 3 2 [3] true
    rfl rfl (by decide)
  exact ⟨h.2.2.1, h.1, h.2.2.2.1, h.2.2.2.2⟩

/-- Shared helper: navigateToPage preserves the pending-slot invariant. -/
theorem pendingInv_nav (s : ReaderState) (p : Int) (h : pendingInv s) :
    pendingInv (navigateToPage s p).1 := by
  cases hdoc : s.pdfDoc with
  | none => simpa [navigateToPage, hdoc] using h
  | some n =>
      by_cases hv : p < 1 ∨ p > (n : Int)
      · simpa [navigateToPage, hdoc, hv] using h
      · cases hrend : s.pageRendering with
        | true => simp [navigateToPage, hdoc, hv, hrend, pendingInv]
        | false =>
            simp [navigateToPage, hdoc, hv, hrend, renderCurrentPageStart,
              pendingInv]

/-- Shared helper: navigating from a state with an empty pending slot and no
render in progress leaves the pending slot empty (either the request is
rejected or a render cycle starts without touching the slot). -/
theorem nav_pending_none (s : ReaderState) (p : Int)
    (hp : s.pageNumPending = none) (hr : s.pageRendering = false) :
    (navigateToPage s p).1.pageNumPending = none := by
  cases hdoc : s.pdfDoc with
  | none => simp [navigateToPage, hdoc, hp]
  | some n =>
      by_cases hv : p < 1 ∨ p > (n : Int)
      · simp [navigateToPage, hdoc, hv, hp]
      · simp [navigateToPage, hdoc, hv, hr, renderCurrentPageStart, hp]

/-- Shared helper: completing a render cycle re-establishes the pending-slot
invariant unconditionally. -/
theorem pendingInv_complete (s : ReaderState) (ok : Bool) :
    pendingInv (renderComplete s ok).1 := by
  cases hp : s.pageNumPending with
  | none => simp [renderComplete, hp, pendingInv]
  | some q =>
      have h2 := nav_pending_none
        { s with pageRendering := false, pageNumPending := none } q rfl rfl
      simp [renderComplete, hp, pendingInv, h2]

/-- Shared helper: loadPDF preserves the pending-slot invariant. -/
theorem pendingInv_load (s : ReaderState) (file : Option LoadOutcome)
    (h : pendingInv s) : pendingInv (loadPDF s file).1 := by
  cases file with
  | none => simpa [loadPDF] using h
  | some o =>
      cases o with
      | failure => simpa [loadPDF] using h
      | success n =>
          cases hrend : s.pageRendering with
          | true =>
              simp [loadPDF, renderCurrentPageStart, hrend, pendingInv]
          | false =>
              simp [loadPDF, renderCurrentPageStart, hrend, pendingInv]

/-- Shared helper: the pending-slot invariant holds in every reachable
state. -/
theorem reachable_pendingInv (s : ReaderState) (h : Reachable s) :
    pendingInv s := by
  induction h with
  | init => intro habs; simp [initState] at habs
  | step hr hstep ih =>
      cases hstep with
      | nav p => exact pendingInv_nav _ p ih
      | complete ok hrend => exact pendingInv_complete _ ok
      | load file => exact pendingInv_load _ file ih

/-- C3: in every reachable state the pending page number is set only while
the render-in-progress flag is true; and whenever an in-progress render
completes with a pending page p, the pending slot is cleared and its value
is consumed by exactly one follow-up navigation: the completion is exactly
the error bookkeeping followed by one navigateToPage call with p from the
state with the flag cleared and the slot reset to null, after which the
slot is still empty. -/
theorem pending_slot_invariant (s : ReaderState) (hs : Reachable s) :
    (s.pageNumPending.isSome = true → s.pageRendering = true) ∧
    (∀ (p : Int) (ok : Bool), s.pageNumPending = some p →
      (renderComplete s ok).1.pageNumPending = none ∧
      renderComplete s ok =
        ((navigateToPage
            { s with pageRendering := false, pageNumPending := none } p).1,
         (if ok then [] else [Event.logError]) ++
           (navigateToPage
            { s with pageRendering := false, pageNumPending := none } p).2)) := by
  refine ⟨reachable_pendingInv s hs, ?_⟩
  intro p ok hp
  have h2 := nav_pending_none
    { s with pageRendering := false, pageNumPending := none } p rfl rfl
  constructor
  · simp [renderComplete, hp, h2]
  · simp [renderComplete, hp]

/-- C3 witness: the claim evaluated in the reachable state obtained by
loading a 3-page document (which starts the initial render) and then
requesting page 2 while that render is in progress. -/
theorem pending_slot_invariant_witness :
    (navigateToPage (loadPDF initState (some (LoadOutcome.success 3))).1
        2).1.pageRendering = true ∧
    (renderComplete
      (navigateToPage (loadPDF initState (some (LoadOutcome.success 3))).1 2).1
        true).1.pageNumPending = none := by
  have hreach : Reachable
      (navigateToPage (loadPDF initState (some (LoadOutcome.success 3))).1 2).1 :=
    Reachable.step
      (Reachable.step Reachable.init
        (Step.load initState (some (LoadOutcome.success 3))))
      (Step.nav (loadPDF initState (some (LoadOutcome.success 3))).1 2)
  have h := pending_slot_invariant
    (navigateToPage (loadPDF initState (some (LoadOutcome.success 3))).1 2).1 hreach
  exact ⟨h.1 (by decide), (h.2 2 true (by decide)).1⟩

/-- Shared helper: initDarkMode run at startup (the body initially carries
no dark-mode class) establishes agreement between class membership and the
persisted preference, which is the hypothesis of the toggle theorem. -/
theorem initDarkMode_coherent (st : Option String) (bt : String) :
    (initDarkMode ⟨false, st, bt⟩).bodyDark =
      darkPref (initDarkMode ⟨false, st, bt⟩) := by
  cases hsaved : (st == some "true") with
  | true => simp [initDarkMode, updateDarkModeButton, darkPref, hsaved]
  | false => simp [initDarkMode, updateDarkModeButton, darkPref, hsaved]
